import Mathlib

/-!
Verification development for the gateway-proxy repository
(src/dispatch.rs, src/cache.rs, src/upgrade.rs).

The Rust code is shallowly embedded: JSON values are an inductive type,
upstream frames arrive pre-parsed as JSON values (the repository's custom
scanning deserializer, deserializer.rs, is not part of src/ and is modelled
from the spec at the JSON level), the dispatcher task is a step function on
an explicit state record, and fallible operations return Option/Except.
Machine integers are modelled as Nat/Int; the SHA-1 words are Nats reduced
mod 2^32 at every step.
-/

set_option maxRecDepth 100000

/-- A JSON value. Objects are association lists (key order is irrelevant to
every property proved here; the Rust side uses hash maps). -/
inductive Json where
  | null : Json
  | bool (b : Bool) : Json
  | num (n : Int) : Json
  | str (s : String) : Json
  | arr (xs : List Json) : Json
  | obj (kvs : List (String × Json)) : Json

/-- The `JsonObject` alias from model.rs: a JSON object body. -/
abbrev JsonObject := List (String × Json)

/-- First-match lookup in a JSON object (hash-map `get`). -/
def objLookup (k : String) : JsonObject → Option Json
  | [] => none
  | (k', v) :: rest => if k' = k then some v else objLookup k rest

/-- Hash-map `insert`: replace the value of an existing key in place,
append the pair when the key is absent. -/
def objInsert (o : JsonObject) (k : String) (v : Json) : JsonObject :=
  match o with
  | [] => [(k, v)]
  | (k', v') :: rest => if k' = k then (k, v) :: rest else (k', v') :: objInsert rest k v

theorem objLookup_objInsert_self (o : JsonObject) (k : String) (v : Json) :
    objLookup k (objInsert o k v) = some v := by
  induction o with
  | nil => simp [objInsert, objLookup]
  | cons hd tl ih =>
    obtain ⟨k', v'⟩ := hd
    by_cases h : k' = k <;> simp [objInsert, objLookup, h, ih]

theorem objLookup_objInsert_other (o : JsonObject) (k k' : String) (v : Json)
    (hne : k' ≠ k) : objLookup k' (objInsert o k v) = objLookup k' o := by
  have hne' : ¬ k = k' := fun h => hne h.symm
  induction o with
  | nil => simp [objInsert, objLookup, hne']
  | cons hd tl ih =>
    obtain ⟨k0, v0⟩ := hd
    by_cases h : k0 = k
    · subst h
      simp [objInsert, objLookup, hne']
    · simp only [objInsert, if_neg h, objLookup]
      by_cases h' : k0 = k' <;> simp [h', ih]

/-! ## Gateway deserializer (component A)

Modelled from the spec: deserializer.rs is not in src/.  Per §4.A the
deserializer extracts `op` (integer), optionally `s` and `t`, from the
top-level object; a frame whose outer shape is not a JSON object fails with
MalformedFrame and a missing `op` fails with MissingOp.  `s` / `t` are
reported only when present and non-null (with the right scalar shape). -/

inductive DeserError where
  | MalformedFrame : DeserError
  | MissingOp : DeserError
deriving DecidableEq

/-- The result of `GatewayEventDeserializer::into_parts()`:
op code, optional sequence number, optional event type. -/
structure Parts where
  op : Int
  sequence : Option Int
  eventType : Option String
deriving DecidableEq

/-- Modelled from the spec: `GatewayEventDeserializer::from_json` followed by
`into_parts()` (deserializer.rs is not in src/). -/
def from_json (payload : Json) : Except DeserError Parts :=
  match payload with
  | .obj kvs =>
    match objLookup "op" kvs with
    | some (Json.num n) =>
      let sequence : Option Int :=
        match objLookup "s" kvs with
        | some (Json.num s) => some s
        | _ => none
      let eventType : Option String :=
        match objLookup "t" kvs with
        | some (Json.str t) => some t
        | _ => none
      Except.ok { op := n, sequence := sequence, eventType := eventType }
    | _ => Except.error DeserError.MissingOp
  | _ => Except.error DeserError.MalformedFrame

/-! ## Shard dispatcher (dispatch.rs, `dispatch_events`) -/

/-- Modelled from the spec: model.rs is not in src/. `Ready` is the struct
deserialized from the full READY payload; it exposes the payload body `d`
as a JSON object. Deserialization fails when `d` is absent or not an
object (in dispatch.rs that failure is unwrapped, i.e. a panic). -/
def parseReady (payload : Json) : Option JsonObject :=
  match payload with
  | .obj kvs =>
    match objLookup "d" kvs with
    | some (Json.obj d) => some d
    | _ => none
  | _ => none

/-- dispatch.rs lines 43-47: clear the `guilds` array of the READY body in
place, when it is present and is an array. -/
def clearGuilds (d : JsonObject) : JsonObject :=
  match objLookup "guilds" d with
  | some (Json.arr _) => objInsert d "guilds" (Json.arr [])
  | _ => d

/-- The ready cell of ShardStatus (state.rs is not in src/). Per the spec
§3/§5/§9 the ReadyTemplate lives in a write-once cell; dispatch.rs matches
this: it discards the `Result` of `set` with the comment "We don't care if
it was already set". `set` stores the value only when the cell is empty. -/
def onceSet (cell : Option JsonObject) (v : JsonObject) : Option JsonObject :=
  match cell with
  | none => some v
  | some old => some old

/-- An upstream event as seen by `dispatch_events`: either a raw payload
frame (`Event::ShardPayload`, carried here as parsed JSON) or any other
typed event (only fed to the cache). -/
inductive UpstreamEvent where
  | shardPayload (payload : Json) : UpstreamEvent
  | other : UpstreamEvent

/-- Observable state of the dispatcher task: the ready cell, the number of
notify calls on the ready-latch, the messages sent on the broadcast bus
(payload plus optional sequence info), the number of cache updates, and
whether the task has panicked. -/
structure DispatchState where
  ready : Option JsonObject
  notifyCount : Nat
  broadcasts : List (Json × Option Int)
  cacheUpdates : Nat
  panicked : Bool

def initState : DispatchState :=
  { ready := none, notifyCount := 0, broadcasts := [], cacheUpdates := 0, panicked := false }

/-- One iteration of the `while let Some(event) = events.next()` loop of
`dispatch_events` (dispatch.rs lines 26-71). A panicked task processes
nothing further. The two `.unwrap()` calls (deserializer, READY parse)
become transitions into the panicked state. -/
def dispatchStep (st : DispatchState) (ev : UpstreamEvent) : DispatchState :=
  if st.panicked then st
  else
    let st := { st with cacheUpdates := st.cacheUpdates + 1 }
    match ev with
    | .other => st
    | .shardPayload payload =>
      match from_json payload with
      | .error _ => { st with panicked := true }
      | .ok parts =>
        match parts.eventType with
        | some name =>
          if name = "READY" then
            match parseReady payload with
            | none => { st with panicked := true }
            | some d =>
              { st with
                  ready := onceSet st.ready (clearGuilds d)
                  notifyCount := st.notifyCount + 1 }
          else if name = "RESUMED" then st
          else if parts.op = 0 then
            { st with broadcasts := st.broadcasts ++ [(payload, parts.sequence)] }
          else st
        | none =>
          if parts.op = 0 then
            { st with broadcasts := st.broadcasts ++ [(payload, parts.sequence)] }
          else st

/-- The dispatcher task run on a finite prefix of the upstream stream. -/
def dispatchRun (st : DispatchState) (evs : List UpstreamEvent) : DispatchState :=
  evs.foldl dispatchStep st

theorem dispatchStep_panicked (st : DispatchState) (ev : UpstreamEvent)
    (h : st.panicked = true) : dispatchStep st ev = st := by
  simp [dispatchStep, h]

theorem dispatchRun_panicked (st : DispatchState) (evs : List UpstreamEvent)
    (h : st.panicked = true) : dispatchRun st evs = st := by
  induction evs with
  | nil => rfl
  | cons e rest ih =>
    simp only [dispatchRun, List.foldl_cons, dispatchStep_panicked st e h]
    exact ih

/-! ## Cache entities and the replay engine (cache.rs)

The in-memory cache (twilight's InMemoryCache) is an external collaborator;
per spec §4.B only its read interface matters here, modelled as a record of
total lookup functions.  All entity records carry the fields that cache.rs
actually reads or constructs.  Ids are Nats. -/

/-- The fields of a cached guild that cache.rs reads
(`guild.id() / unavailable() / member_count() / name() / owner_id() /
permissions()`). -/
structure CachedGuild where
  id : Nat
  unavailable : Bool
  member_count : Option Nat
  name : String
  owner_id : Nat
  permissions : Option Nat
deriving DecidableEq

/-- A channel as stored in (and cloned out of) the cache; `isThread` is
`channel.kind.is_thread()`. -/
structure Channel where
  id : Nat
  isThread : Bool
deriving DecidableEq

/-- A user record. -/
structure User where
  id : Nat
  name : String
deriving DecidableEq

/-- The cached member fields read by `Guilds::member` (deaf/mute are
Options in the cache and defaulted on read). -/
structure CachedMember where
  avatar : Option String
  communication_disabled_until : Option Nat
  deaf : Option Bool
  flags : Nat
  joined_at : Option Nat
  mute : Option Bool
  nick : Option String
  pending : Bool
  premium_since : Option Nat
  roles : List Nat
  user_id : Nat
deriving DecidableEq

/-- The twilight Member model constructed by `Guilds::member`. -/
structure Member where
  avatar : Option String
  communication_disabled_until : Option Nat
  deaf : Bool
  flags : Nat
  joined_at : Option Nat
  mute : Bool
  nick : Option String
  pending : Bool
  premium_since : Option Nat
  roles : List Nat
  user : User
deriving DecidableEq

/-- A role resource. -/
structure Role where
  id : Nat
  name : String
deriving DecidableEq

/-- The cached voice-state fields read by `Guilds::voice_states_in_guild`. -/
structure CachedVoiceState where
  channel_id : Nat
  deaf : Bool
  guild_id : Nat
  mute : Bool
  self_deaf : Bool
  self_mute : Bool
  self_stream : Bool
  self_video : Bool
  session_id : String
  suppress : Bool
  user_id : Nat
  request_to_speak_timestamp : Option Nat
deriving DecidableEq

/-- The twilight VoiceState model constructed during replay. -/
structure VoiceState where
  channel_id : Option Nat
  deaf : Bool
  guild_id : Option Nat
  member : Option Member
  mute : Bool
  self_deaf : Bool
  self_mute : Bool
  self_stream : Bool
  self_video : Bool
  session_id : String
  suppress : Bool
  user_id : Nat
  request_to_speak_timestamp : Option Nat
deriving DecidableEq

/-- The read interface of the InMemoryCache used by cache.rs: iteration
over guilds, per-guild id sets (each an Option mirroring the library's
`Option<Reference<..>>` with `unwrap_or_default`), and point lookups. -/
structure Cache where
  guilds : List CachedGuild
  guildChannels : Nat → Option (List Nat)
  channels : Nat → Option Channel
  guildMembers : Nat → Option (List Nat)
  members : Nat → Nat → Option CachedMember
  users : Nat → Option User
  guildRoles : Nat → Option (List Nat)
  roles : Nat → Option Role
  guildVoiceStates : Nat → Option (List Nat)
  voiceStates : Nat → Nat → Option CachedVoiceState

/-- The guild model constructed for a replayed GUILD_CREATE (cache.rs
lines 235-247). -/
structure Guild where
  channels : List Channel
  id : Nat
  member_count : Option Nat
  members : List Member
  name : String
  owner_id : Nat
  permissions : Option Nat
  roles : List Role
  threads : List Channel
  unavailable : Bool
  voice_states : List VoiceState
deriving DecidableEq

/-- `GuildDelete` payload body. -/
structure GuildDelete where
  id : Nat
  unavailable : Bool
deriving DecidableEq

/-- The untagged event body of a replay payload (cache.rs `enum Event`). -/
inductive Event where
  | Ready (d : JsonObject) : Event
  | GuildCreate (g : Guild) : Event
  | GuildDelete (g : GuildDelete) : Event

/-- A replay payload (cache.rs `struct Payload`); `op` is the opcode's
wire value, `OpCode::Dispatch` being 0. -/
structure Payload where
  d : Event
  op : Nat
  t : String
  s : Nat

namespace Guilds

/-- cache.rs `Guilds::get_ready_payload`: bump the sequence, overwrite the
template's `guilds` with one `{id, unavailable:true}` stub per cached
guild, and wrap it as a READY dispatch. Returns the payload together with
the new value of the `&mut usize` sequence. -/
def get_ready_payload (c : Cache) (ready : JsonObject) (sequence : Nat) :
    Payload × Nat :=
  let sequence := sequence + 1
  let unavailable_guilds : List Json :=
    c.guilds.map (fun guild =>
      Json.obj [("id", Json.str (toString guild.id)),
                ("unavailable", Json.bool true)])
  let ready := objInsert ready "guilds" (Json.arr unavailable_guilds)
  ({ d := Event.Ready ready, op := 0, t := "READY", s := sequence }, sequence)

/-- cache.rs `Guilds::channels_in_guild`: the guild's non-thread channels. -/
def channels_in_guild (c : Cache) (guild_id : Nat) : List Channel :=
  match c.guildChannels guild_id with
  | some ids =>
    ids.filterMap (fun channel_id =>
      match c.channels channel_id with
      | none => none
      | some channel => if channel.isThread then none else some channel)
  | none => []

/-- cache.rs `Guilds::member`: hydrate a member, requiring both the member
record and its user record; `None` when either is missing. -/
def member (c : Cache) (guild_id user_id : Nat) : Option Member :=
  match c.members guild_id user_id with
  | none => none
  | some m =>
    match c.users m.user_id with
    | none => none
    | some u =>
      some { avatar := m.avatar
             communication_disabled_until := m.communication_disabled_until
             deaf := m.deaf.getD false
             flags := m.flags
             joined_at := m.joined_at
             mute := m.mute.getD false
             nick := m.nick
             pending := m.pending
             premium_since := m.premium_since
             roles := m.roles
             user := u }

/-- cache.rs `Guilds::members_in_guild`. -/
def members_in_guild (c : Cache) (guild_id : Nat) : List Member :=
  match c.guildMembers guild_id with
  | some ids => ids.filterMap (fun user_id => member c guild_id user_id)
  | none => []

/-- cache.rs `Guilds::roles_in_guild`. -/
def roles_in_guild (c : Cache) (guild_id : Nat) : List Role :=
  match c.guildRoles guild_id with
  | some ids => ids.filterMap (fun role_id => c.roles role_id)
  | none => []

/-- The voice state built for one cached entry (the closure body in
cache.rs lines 168-182); its `member` field is the hydrated member, or
`none` when that lookup misses. -/
def voiceStateOf (c : Cache) (guild_id user_id : Nat)
    (vs : CachedVoiceState) : VoiceState :=
  { channel_id := some vs.channel_id
    deaf := vs.deaf
    guild_id := some vs.guild_id
    member := member c guild_id user_id
    mute := vs.mute
    self_deaf := vs.self_deaf
    self_mute := vs.self_mute
    self_stream := vs.self_stream
    self_video := vs.self_video
    session_id := vs.session_id
    suppress := vs.suppress
    user_id := vs.user_id
    request_to_speak_timestamp := vs.request_to_speak_timestamp }

/-- cache.rs `Guilds::voice_states_in_guild`. -/
def voice_states_in_guild (c : Cache) (guild_id : Nat) : List VoiceState :=
  match c.guildVoiceStates guild_id with
  | some ids =>
    ids.filterMap (fun user_id =>
      match c.voiceStates user_id guild_id with
      | none => none
      | some vs => some (voiceStateOf c guild_id user_id vs))
  | none => []

/-- cache.rs `Guilds::threads_in_guild`: the guild's thread channels. -/
def threads_in_guild (c : Cache) (guild_id : Nat) : List Channel :=
  match c.guildChannels guild_id with
  | some ids =>
    ids.filterMap (fun channel_id =>
      match c.channels channel_id with
      | none => none
      | some channel => if channel.isThread then some channel else none)
  | none => []

/-- The payload emitted for one guild at sequence value `s` (the closure
body in cache.rs `get_guild_payloads`, lines 213-257). -/
def guildPayloadOf (c : Cache) (guild : CachedGuild) (s : Nat) : Payload :=
  if guild.unavailable then
    { d := Event.GuildDelete { id := guild.id, unavailable := true }
      op := 0, t := "GUILD_DELETE", s := s }
  else
    { d := Event.GuildCreate
        { channels := channels_in_guild c guild.id
          id := guild.id
          member_count := guild.member_count
          members := members_in_guild c guild.id
          name := guild.name
          owner_id := guild.owner_id
          permissions := guild.permissions
          roles := roles_in_guild c guild.id
          threads := threads_in_guild c guild.id
          unavailable := false
          voice_states := voice_states_in_guild c guild.id }
      op := 0, t := "GUILD_CREATE", s := s }

/-- Recursion underlying `get_guild_payloads`: one payload per guild, the
`&mut usize` sequence incremented before each. -/
def guildPayloadsGo (c : Cache) : List CachedGuild → Nat → List Payload × Nat
  | [], sequence => ([], sequence)
  | guild :: rest, sequence =>
    let sequence := sequence + 1
    let p := guildPayloadOf c guild sequence
    let (ps, sequence') := guildPayloadsGo c rest sequence
    (p :: ps, sequence')

/-- cache.rs `Guilds::get_guild_payloads`: the full (finite) sequence of
per-guild replay payloads, with the final sequence value. -/
def get_guild_payloads (c : Cache) (sequence : Nat) : List Payload × Nat :=
  guildPayloadsGo c c.guilds sequence

theorem guildPayloadsGo_spec (c : Cache) (gs : List CachedGuild) (sequence : Nat) :
    (guildPayloadsGo c gs sequence).1.length = gs.length ∧
    (guildPayloadsGo c gs sequence).2 = sequence + gs.length ∧
    ∀ i, (h : i < gs.length) →
      (guildPayloadsGo c gs sequence).1.get? i =
        some (guildPayloadOf c (gs.get ⟨i, h⟩) (sequence + i + 1)) := by
  induction gs generalizing sequence with
  | nil => exact ⟨rfl, by simp [guildPayloadsGo], fun i h => absurd h (by simp)⟩
  | cons g rest ih =>
    obtain ⟨hlen, hseq, hget⟩ := ih (sequence + 1)
    refine ⟨?_, ?_, ?_⟩
    · simp [guildPayloadsGo, hlen]
    · simp only [guildPayloadsGo, hseq, List.length_cons]
      omega
    · intro i h
      match i with
      | 0 => simp [guildPayloadsGo]
      | Nat.succ j =>
        have hj : j < rest.length := by simpa using h
        have := hget j hj
        simp only [guildPayloadsGo, List.get?_cons_succ, List.get_cons_succ]
        rw [this]
        congr 2
        omega

end Guilds

/-! ## WebSocket upgrade (upgrade.rs, `server_upgrade`)

Bytes are Nats < 256.  The sha1 and base64 crates used by upgrade.rs are
external; they are embedded as the standard SHA-1 and standard base64
algorithms.  Header values are byte strings (hyper's HeaderValue), and
`HeaderValue::to_str` succeeds exactly on visible-ASCII bytes. -/

/-- The bytes of an ASCII string. -/
def strBytes (s : String) : List Nat := s.data.map Char.toNat

/-- hyper's visible-ASCII test used by `HeaderValue::to_str` /
`HeaderValue::from_str`: space..tilde, or horizontal tab. -/
def visibleAscii (b : Nat) : Bool := (decide (32 ≤ b) && decide (b < 127)) || b == 9

/-- `HeaderValue::to_str`: Some exactly when every byte is visible ASCII. -/
def toStr (bytes : List Nat) : Option String :=
  if bytes.all visibleAscii then some (String.mk (bytes.map Char.ofNat)) else none

/-- 2^32, the SHA-1 word modulus. -/
def w32 : Nat := 4294967296

/-- Rotate a 32-bit word left by n. -/
def rotl (n w : Nat) : Nat := ((w <<< n) % w32) ||| (w >>> (32 - n))

/-- The SHA-1 round function. -/
def sha1F (t b c d : Nat) : Nat :=
  if t < 20 then (b &&& c) ||| ((b ^^^ 4294967295) &&& d)
  else if t < 40 then b ^^^ c ^^^ d
  else if t < 60 then (b &&& c) ||| (b &&& d) ||| (c &&& d)
  else b ^^^ c ^^^ d

/-- The SHA-1 round constants. -/
def sha1K (t : Nat) : Nat :=
  if t < 20 then 1518500249
  else if t < 40 then 1859775393
  else if t < 60 then 2400959708
  else 3395469782

/-- Big-endian 32-bit words from bytes. -/
def toWords : List Nat → List Nat
  | b0 :: b1 :: b2 :: b3 :: rest =>
    (((b0 * 256 + b1) * 256 + b2) * 256 + b3) :: toWords rest
  | _ => []

/-- Extend a 16-word block schedule by `t` further words. -/
def sha1Schedule (ws : List Nat) : Nat → List Nat
  | 0 => ws
  | t + 1 =>
    let ws := sha1Schedule ws t
    let n := ws.length
    ws ++ [rotl 1 (ws.getD (n - 3) 0 ^^^ ws.getD (n - 8) 0 ^^^
                   ws.getD (n - 14) 0 ^^^ ws.getD (n - 16) 0)]

/-- The five 32-bit SHA-1 chaining words. -/
structure Sha1State where
  a : Nat
  b : Nat
  c : Nat
  d : Nat
  e : Nat

def sha1Round (W : List Nat) (s : Sha1State) (t : Nat) : Sha1State :=
  let temp := (rotl 5 s.a + sha1F t s.b s.c s.d + s.e + sha1K t + W.getD t 0) % w32
  ⟨temp, s.a, rotl 30 s.b, s.c, s.d⟩

def sha1Block (h : Sha1State) (block : List Nat) : Sha1State :=
  let W := sha1Schedule (toWords block) 64
  let s := (List.range 80).foldl (sha1Round W) h
  ⟨(h.a + s.a) % w32, (h.b + s.b) % w32, (h.c + s.c) % w32,
   (h.d + s.d) % w32, (h.e + s.e) % w32⟩

def sha1InitState : Sha1State :=
  ⟨1732584193, 4023233417, 2562383102, 271733878, 3285377520⟩

/-- Merkle–Damgård padding: 0x80, zeros to 56 mod 64, 64-bit BE bit length. -/
def sha1Pad (msg : List Nat) : List Nat :=
  let len := msg.length
  let zeros := (120 - (len + 1) % 64) % 64
  let bitLen := len * 8
  msg ++ [128] ++ List.replicate zeros 0 ++
    [bitLen / 2 ^ 56 % 256, bitLen / 2 ^ 48 % 256, bitLen / 2 ^ 40 % 256,
     bitLen / 2 ^ 32 % 256, bitLen / 2 ^ 24 % 256, bitLen / 2 ^ 16 % 256,
     bitLen / 2 ^ 8 % 256, bitLen % 256]

/-- Split into 64-byte blocks (fuelled; call with fuel = length). -/
def chunks64 : Nat → List Nat → List (List Nat)
  | 0, _ => []
  | _, [] => []
  | fuel + 1, x :: xs => (x :: xs.take 63) :: chunks64 fuel (xs.drop 63)

/-- Big-endian bytes of a 32-bit word. -/
def wordBytes (w : Nat) : List Nat :=
  [w / 2 ^ 24 % 256, w / 2 ^ 16 % 256, w / 2 ^ 8 % 256, w % 256]

/-- SHA-1 of a byte string (the sha1 crate's `Sha1`). -/
def sha1 (msg : List Nat) : List Nat :=
  let padded := sha1Pad msg
  let final := (chunks64 padded.length padded).foldl sha1Block sha1InitState
  wordBytes final.a ++ wordBytes final.b ++ wordBytes final.c ++
    wordBytes final.d ++ wordBytes final.e

/-- The base64 alphabet. -/
def b64Alphabet : List Char :=
  "ABCDEFGHIJKLMNOPQRSTUVWXYZabcdefghijklmnopqrstuvwxyz0123456789+/".data

def b64Char (n : Nat) : Char := b64Alphabet.getD n 'A'

/-- Encode one group of 1-3 bytes as 4 base64 characters. -/
def b64Group : List Nat → List Char
  | [] => []
  | [a] => [b64Char (a / 4), b64Char (a % 4 * 16), '=', '=']
  | [a, b] => [b64Char (a / 4), b64Char (a % 4 * 16 + b / 16), b64Char (b % 16 * 4), '=']
  | a :: b :: c :: _ =>
    [b64Char (a / 4), b64Char (a % 4 * 16 + b / 16), b64Char (b % 16 * 4 + c / 64),
     b64Char (c % 64)]

/-- Split into 3-byte groups (fuelled; call with fuel = length). -/
def chunks3 : Nat → List Nat → List (List Nat)
  | 0, _ => []
  | _, [] => []
  | fuel + 1, x :: xs => (x :: xs.take 2) :: chunks3 fuel (xs.drop 2)

/-- base64 encoding of a byte string (the base64 crate's `encode`). -/
def encode (bs : List Nat) : String :=
  String.mk (((chunks3 bs.length bs).map b64Group).flatten)

/-- upgrade.rs line 24: the RFC 6455 handshake GUID. -/
def GUID : String := "258EAFA5-E914-47DA-95CA-C5AB0DC85B11"

/-- upgrade.rs lines 59-62: the Sec-WebSocket-Accept value for a key. -/
def acceptKey (key : List Nat) : String := encode (sha1 (key ++ strBytes GUID))

/-- An HTTP upgrade request: the URL query string and the headers (names
are lowercase, values are raw bytes, as in hyper's HeaderMap). -/
structure Request where
  query : Option String
  headers : List (String × List Nat)

/-- `HeaderMap::get`: first value for the name. -/
def hGet (req : Request) (name : String) : Option (List Nat) :=
  List.lookup name req.headers

/-- Rust's `Option::contains` (upgrade.rs line 37 calls it on
`uri.query()`): true exactly when the option holds a value equal to the
argument, i.e. equality of the whole query string. -/
def optContains (o : Option String) (s : String) : Bool :=
  match o with
  | some v => v == s
  | none => false

/-- upgrade.rs lines 32-39: the per-connection zlib flag. -/
def useZlibFlag (query : Option String) : Bool :=
  optContains query "compress=zlib-stream"

/-- The observable outcome of `server_upgrade`: the HTTP response status
and headers, whether a client task was spawned, and the recorded zlib
flag. -/
structure UpgradeOutcome where
  status : Nat
  headers : List (String × String)
  spawned : Bool
  use_zlib : Bool
deriving DecidableEq

/-- upgrade.rs `server_upgrade`.  `none` models a panic: the two
`.unwrap()` calls that can actually fail are `upgrade.to_str().unwrap()`
(line 52) and `HeaderValue::from_str(&accept_key).unwrap()` (line 82); the
header `get` unwraps are guarded by the `contains_key` checks. -/
def server_upgrade (req : Request) : Option UpgradeOutcome :=
  let use_zlib := useZlibFlag req.query
  if (hGet req "upgrade").isNone || (hGet req "sec-websocket-key").isNone then
    some { status := 400, headers := [], spawned := false, use_zlib := use_zlib }
  else
    match hGet req "upgrade" with
    | none => none
    | some upgradeBytes =>
      match toStr upgradeBytes with
      | none => none
      | some upgradeStr =>
        if upgradeStr ≠ "websocket" then
          some { status := 400, headers := [], spawned := false, use_zlib := use_zlib }
        else
          match hGet req "sec-websocket-key" with
          | none => none
          | some key =>
            let accept_key := acceptKey key
            if (strBytes accept_key).all visibleAscii then
              some { status := 101
                     headers := [("connection", "Upgrade"),
                                 ("upgrade", "websocket"),
                                 ("sec-websocket-accept", accept_key),
                                 ("sec-websocket-version", "13")]
                     spawned := true
                     use_zlib := use_zlib }
            else none

/-- Decidable form of the C10 precondition: every present Upgrade header
value is visible ASCII. -/
def reqUpgradeVisible (req : Request) : Bool :=
  match hGet req "upgrade" with
  | some v => v.all visibleAscii
  | none => true

/-! ## Visibility of base64 output (needed for the 101 path) -/

theorem b64Alphabet_length : b64Alphabet.length = 64 := by decide

theorem b64Char_vis (n : Nat) : visibleAscii (b64Char n).toNat = true := by
  rcases Nat.lt_or_ge n 64 with h | h
  · exact (show ∀ m, m < 64 → visibleAscii (b64Char m).toNat = true by decide) n h
  · have : b64Char n = 'A' := by
      rw [b64Char, List.getD_eq_default]
      rw [b64Alphabet_length]
      exact h
    rw [this]
    decide

theorem b64Group_vis (g : List Nat) :
    ∀ ch ∈ b64Group g, visibleAscii ch.toNat = true := by
  intro ch hch
  match g with
  | [] => simp [b64Group] at hch
  | [a] =>
    simp [b64Group] at hch
    rcases hch with rfl | rfl | rfl
    · exact b64Char_vis _
    · exact b64Char_vis _
    · decide
  | [a, b] =>
    simp [b64Group] at hch
    rcases hch with rfl | rfl | rfl | rfl
    · exact b64Char_vis _
    · exact b64Char_vis _
    · exact b64Char_vis _
    · decide
  | a :: b :: c :: rest =>
    simp [b64Group] at hch
    rcases hch with rfl | rfl | rfl | rfl
    · exact b64Char_vis _
    · exact b64Char_vis _
    · exact b64Char_vis _
    · exact b64Char_vis _

theorem encode_vis (bs : List Nat) :
    (strBytes (encode bs)).all visibleAscii = true := by
  have hmem : ∀ ch ∈ ((chunks3 bs.length bs).map b64Group).flatten,
      visibleAscii ch.toNat = true := by
    intro ch hch
    rcases List.mem_flatten.mp hch with ⟨l, hl, hchl⟩
    rcases List.mem_map.mp hl with ⟨g, hg, rfl⟩
    exact b64Group_vis g ch hchl
  show ((((chunks3 bs.length bs).map b64Group).flatten).map Char.toNat).all
      visibleAscii = true
  rw [List.all_eq_true]
  intro x hx
  rcases List.mem_map.mp hx with ⟨ch, hch, rfl⟩
  exact hmem ch hch

/-! ## Concrete upstream frames used in counterexamples and witnesses -/

/-- A READY body carrying `v = 10` and a non-empty guilds array. -/
def dBody1 : JsonObject :=
  [("v", Json.num 10), ("guilds", Json.arr [Json.obj [("id", Json.str "1")]])]

/-- A second READY body (after an upstream reconnect) carrying `v = 11`. -/
def dBody2 : JsonObject := [("v", Json.num 11), ("guilds", Json.arr [])]

def readyFrame1 : Json :=
  Json.obj [("op", Json.num 0), ("t", Json.str "READY"), ("s", Json.num 1),
            ("d", Json.obj dBody1)]

def readyFrame2 : Json :=
  Json.obj [("op", Json.num 0), ("t", Json.str "READY"), ("s", Json.num 2),
            ("d", Json.obj dBody2)]

/-- A frame whose outer shape is not a JSON object. -/
def badFrame : Json := Json.arr []

/-- A well-formed dispatch frame following the malformed one. -/
def goodFrame : Json :=
  Json.obj [("op", Json.num 0), ("t", Json.str "GUILD_CREATE"), ("s", Json.num 5),
            ("d", Json.obj [])]

/-- A well-formed dispatch frame for the broadcast witness. -/
def msgFrame : Json :=
  Json.obj [("op", Json.num 0), ("t", Json.str "MESSAGE_CREATE"), ("s", Json.num 7),
            ("d", Json.obj [])]

/-! ## Claim C1 -/

/-- C1, counterexample. The claim says a second upstream READY overwrites
the stored ReadyTemplate. It does not: after two READY frames the stored
template is still the first cleared body (`v = 10`), not the second
(`v = 11`); the ready cell is write-once. -/
theorem c1_counterexample :
    (dispatchRun initState
      [UpstreamEvent.shardPayload readyFrame1,
       UpstreamEvent.shardPayload readyFrame2]).ready = some (clearGuilds dBody1) ∧
    objLookup "v" (clearGuilds dBody1) = some (Json.num 10) ∧
    objLookup "v" (clearGuilds dBody2) = some (Json.num 11) ∧
    (Json.num 10 = Json.num 11 → False) := by
  refine ⟨rfl, rfl, rfl, fun h => ?_⟩
  injection h with h
  exact absurd h (by decide)

/-- C1 (amended): on every upstream READY event the dispatcher parses the
payload, clears its d.guilds array, stores the cleared body into the
shard's ReadyTemplate only when no template is stored yet (a second READY
after an upstream reconnect leaves the first stored template in place),
notifies all ready-latch waiters, and does not broadcast the frame. -/
theorem c1_ready_handling (st : DispatchState) (payload : Json) (parts : Parts)
    (d : JsonObject)
    (hpan : st.panicked = false)
    (hok : from_json payload = Except.ok parts)
    (ht : parts.eventType = some "READY")
    (hd : parseReady payload = some d) :
    (dispatchStep st (UpstreamEvent.shardPayload payload)).ready =
      onceSet st.ready (clearGuilds d) ∧
    (dispatchStep st (UpstreamEvent.shardPayload payload)).notifyCount =
      st.notifyCount + 1 ∧
    (dispatchStep st (UpstreamEvent.shardPayload payload)).broadcasts =
      st.broadcasts ∧
    (dispatchStep st (UpstreamEvent.shardPayload payload)).cacheUpdates =
      st.cacheUpdates + 1 ∧
    (dispatchStep st (UpstreamEvent.shardPayload payload)).panicked = false := by
  simp [dispatchStep, hpan, hok, ht, hd]

/-- C1, witness: the first READY of a fresh shard is parsed, cleared,
stored, and the latch notified, with nothing broadcast. -/
theorem c1_witness :
    (dispatchStep initState (UpstreamEvent.shardPayload readyFrame1)).ready =
      some (clearGuilds dBody1) ∧
    (dispatchStep initState (UpstreamEvent.shardPayload readyFrame1)).notifyCount = 1 ∧
    (dispatchStep initState (UpstreamEvent.shardPayload readyFrame1)).broadcasts = [] := by
  have h := c1_ready_handling initState readyFrame1
    { op := 0, sequence := some 1, eventType := some "READY" } dBody1 rfl rfl rfl rfl
  exact ⟨h.1, h.2.1, h.2.2.1⟩

/-! ## Claim C2 -/

/-- C2, counterexample. The claim says a frame on which the deserializer
fails is dropped and the dispatcher continues with subsequent frames. In
fact dispatch.rs unwraps the deserializer result: the task panics, and a
valid dispatch frame arriving right after the malformed one is never
processed (no broadcast, no cache update for it). -/
theorem c2_counterexample :
    from_json badFrame = Except.error DeserError.MalformedFrame ∧
    from_json goodFrame =
      Except.ok { op := 0, sequence := some 5, eventType := some "GUILD_CREATE" } ∧
    (dispatchRun initState
      [UpstreamEvent.shardPayload badFrame,
       UpstreamEvent.shardPayload goodFrame]).panicked = true ∧
    (dispatchRun initState
      [UpstreamEvent.shardPayload badFrame,
       UpstreamEvent.shardPayload goodFrame]).broadcasts = [] ∧
    (dispatchRun initState
      [UpstreamEvent.shardPayload badFrame,
       UpstreamEvent.shardPayload goodFrame]).cacheUpdates = 1 :=
  ⟨rfl, rfl, rfl, rfl, rfl⟩

/-- C2 (amended): on every upstream raw-payload frame on which the gateway
deserializer fails, the dispatcher does not forward the frame, but instead
of dropping it and continuing it panics (the deserializer result is
unwrapped), so the dispatcher task dies and no subsequent frame of the
stream is processed. -/
theorem c2_deser_failure (st : DispatchState) (payload : Json) (e : DeserError)
    (evs : List UpstreamEvent)
    (hpan : st.panicked = false)
    (herr : from_json payload = Except.error e) :
    (dispatchRun st (UpstreamEvent.shardPayload payload :: evs)).panicked = true ∧
    (dispatchRun st (UpstreamEvent.shardPayload payload :: evs)).broadcasts =
      st.broadcasts ∧
    (dispatchRun st (UpstreamEvent.shardPayload payload :: evs)).notifyCount =
      st.notifyCount ∧
    (dispatchRun st (UpstreamEvent.shardPayload payload :: evs)).cacheUpdates =
      st.cacheUpdates + 1 := by
  obtain ⟨r, n, b, cu, p⟩ := st
  subst hpan
  have hstep : dispatchStep ⟨r, n, b, cu, false⟩ (UpstreamEvent.shardPayload payload) =
      ⟨r, n, b, cu + 1, true⟩ := by
    simp [dispatchStep, herr]
  have hrun : dispatchRun ⟨r, n, b, cu, false⟩ (UpstreamEvent.shardPayload payload :: evs) =
      ⟨r, n, b, cu + 1, true⟩ := by
    simp only [dispatchRun, List.foldl_cons, hstep]
    exact dispatchRun_panicked _ evs rfl
  rw [hrun]
  exact ⟨rfl, rfl, rfl, rfl⟩

/-- C2, witness: a malformed frame followed by any suffix kills the task. -/
theorem c2_witness :
    (dispatchRun initState
      [UpstreamEvent.shardPayload badFrame, UpstreamEvent.other]).panicked = true ∧
    (dispatchRun initState
      [UpstreamEvent.shardPayload badFrame, UpstreamEvent.other]).broadcasts = [] := by
  have h := c2_deser_failure initState badFrame DeserError.MalformedFrame
    [UpstreamEvent.other] rfl rfl
  exact ⟨h.1, h.2.1⟩

/-! ## Claim C4 -/

/-- The invariant every message on the broadcast bus satisfies: it parses,
its op is Dispatch (0), its sequence info is the parsed one, and its event
type is neither READY nor RESUMED. -/
def broadcastOk (m : Json × Option Int) : Prop :=
  ∃ parts, from_json m.1 = Except.ok parts ∧ parts.op = 0 ∧
    parts.sequence = m.2 ∧
    parts.eventType ≠ some "READY" ∧ parts.eventType ≠ some "RESUMED"

theorem dispatchStep_broadcasts_eq (st : DispatchState) (payload : Json)
    (parts : Parts) (hpan : st.panicked = false)
    (hok : from_json payload = Except.ok parts) :
    (dispatchStep st (UpstreamEvent.shardPayload payload)).broadcasts =
      (if parts.op = 0 ∧ parts.eventType ≠ some "READY" ∧
          parts.eventType ≠ some "RESUMED"
       then st.broadcasts ++ [(payload, parts.sequence)]
       else st.broadcasts) := by
  cases het : parts.eventType with
  | none =>
    by_cases hop : parts.op = 0 <;>
      simp [dispatchStep, hpan, hok, het, hop]
  | some name =>
    by_cases hr : name = "READY"
    · subst hr
      cases hpr : parseReady payload <;>
        simp [dispatchStep, hpan, hok, het, hpr]
    · by_cases hs : name = "RESUMED"
      · subst hs
        simp [dispatchStep, hpan, hok, het, hr]
      · by_cases hop : parts.op = 0 <;>
          simp [dispatchStep, hpan, hok, het, hr, hs, hop]

theorem dispatchStep_broadcasts_sound (st : DispatchState) (ev : UpstreamEvent)
    (h : ∀ m ∈ st.broadcasts, broadcastOk m) :
    ∀ m ∈ (dispatchStep st ev).broadcasts, broadcastOk m := by
  by_cases hpan : st.panicked
  · rw [dispatchStep_panicked st ev hpan]; exact h
  · rw [Bool.not_eq_true] at hpan
    cases ev with
    | other =>
      intro m hm
      simp [dispatchStep, hpan] at hm
      exact h m hm
    | shardPayload payload =>
      cases hok : from_json payload with
      | error e =>
        intro m hm
        simp [dispatchStep, hpan, hok] at hm
        exact h m hm
      | ok parts =>
        intro m hm
        rw [dispatchStep_broadcasts_eq st payload parts hpan hok] at hm
        by_cases hc : parts.op = 0 ∧ parts.eventType ≠ some "READY" ∧
            parts.eventType ≠ some "RESUMED"
        · rw [if_pos hc] at hm
          rcases List.mem_append.mp hm with hm | hm
          · exact h m hm
          · rcases List.mem_singleton.mp hm with rfl
            exact ⟨parts, hok, hc.1, rfl, hc.2.1, hc.2.2⟩
        · rw [if_neg hc] at hm
          exact h m hm

theorem dispatchRun_broadcasts_sound (st : DispatchState) (evs : List UpstreamEvent)
    (h : ∀ m ∈ st.broadcasts, broadcastOk m) :
    ∀ m ∈ (dispatchRun st evs).broadcasts, broadcastOk m := by
  induction evs generalizing st with
  | nil => exact h
  | cons e rest ih =>
    exact ih (dispatchStep st e) (dispatchStep_broadcasts_sound st e h)

/-- C4: a processed upstream frame is published on the broadcast bus iff
its op is 0 (Dispatch) and its event type is neither READY nor RESUMED;
consequently every message any subscriber receives parses to a dispatch
payload whose type is neither READY nor RESUMED, and non-dispatch ops are
never forwarded. -/
theorem c4_broadcast_iff :
    (∀ st payload parts, st.panicked = false → from_json payload = Except.ok parts →
      (dispatchStep st (UpstreamEvent.shardPayload payload)).broadcasts =
        (if parts.op = 0 ∧ parts.eventType ≠ some "READY" ∧
            parts.eventType ≠ some "RESUMED"
         then st.broadcasts ++ [(payload, parts.sequence)]
         else st.broadcasts)) ∧
    (∀ evs payload si, (payload, si) ∈ (dispatchRun initState evs).broadcasts →
      ∃ parts, from_json payload = Except.ok parts ∧ parts.op = 0 ∧
        parts.sequence = si ∧
        parts.eventType ≠ some "READY" ∧ parts.eventType ≠ some "RESUMED") := by
  constructor
  · exact fun st payload parts hpan hok =>
      dispatchStep_broadcasts_eq st payload parts hpan hok
  · intro evs payload si hm
    exact dispatchRun_broadcasts_sound initState evs (by simp [initState]) (payload, si) hm

/-- C4, witness: a MESSAGE_CREATE dispatch frame is forwarded with its
sequence info, and the forwarded message satisfies the invariant. -/
theorem c4_witness :
    (dispatchStep initState (UpstreamEvent.shardPayload msgFrame)).broadcasts =
      [(msgFrame, some 7)] ∧
    ∃ parts, from_json msgFrame = Except.ok parts ∧ parts.op = 0 ∧
      parts.sequence = some 7 ∧
      parts.eventType ≠ some "READY" ∧ parts.eventType ≠ some "RESUMED" := by
  constructor
  · have h := c4_broadcast_iff.1 initState msgFrame
      { op := 0, sequence := some 7, eventType := some "MESSAGE_CREATE" } rfl rfl
    rw [h, if_pos (by refine ⟨rfl, ?_, ?_⟩ <;> simp)]
    rfl
  · exact c4_broadcast_iff.2 [UpstreamEvent.shardPayload msgFrame] msgFrame (some 7)
      (List.mem_singleton.mpr rfl)

/-! ## Claim C3 -/

/-- A connect request carrying the compression parameter alongside other
query parameters, with valid upgrade headers. -/
def c3Req : Request :=
  { query := some "v=10&compress=zlib-stream"
    headers := [("upgrade", strBytes "websocket"),
                ("sec-websocket-key", strBytes "dGhlIHNhbXBsZSBub25jZQ==")] }

/-- C3: the claim (and the spec) says the zlib flag is set whenever
compress=zlib-stream is present in the query string, also alongside other
parameters. The code calls Rust's Option::contains on `uri.query()`,
which compares the whole query string for equality, so for the query
`v=10&compress=zlib-stream` the flag stays false; it is only set when the
entire query equals `compress=zlib-stream`. This theorem evaluates the
code at the failing input. -/
theorem c3_zlib_flag_eval :
    useZlibFlag (some "v=10&compress=zlib-stream") = false ∧
    useZlibFlag (some "compress=zlib-stream") = true ∧
    (server_upgrade c3Req).map UpgradeOutcome.use_zlib = some false := by
  refine ⟨rfl, rfl, ?_⟩
  decide

/-! ## Claim C9 -/

/-- A request whose Upgrade header is present but not visible ASCII (one
byte 200): its value is certainly not "websocket". -/
def c9badReq : Request :=
  { query := none
    headers := [("upgrade", [200]),
                ("sec-websocket-key", strBytes "dGhlIHNhbXBsZSBub25jZQ==")] }

/-- C9, counterexample: the claim promises a 400 response whenever the
Upgrade header value is not "websocket". For a present Upgrade header
whose bytes are not visible ASCII (here the single byte 200, whose value
is not "websocket"), `upgrade.to_str().unwrap()` panics instead:
server_upgrade returns no response at all. -/
theorem c9_counterexample :
    hGet c9badReq "upgrade" = some [200] ∧
    toStr [200] = none ∧
    server_upgrade c9badReq = none :=
  ⟨rfl, rfl, rfl⟩

/-- C9 (amended): for every upgrade request whose present Upgrade header
value is visible ASCII: if the Upgrade header is missing, the
Sec-WebSocket-Key header is missing, or the Upgrade value is not
"websocket", server_upgrade responds 400 and spawns no client task;
otherwise it responds 101 with Connection: Upgrade, Upgrade: websocket,
Sec-WebSocket-Version: 13 and Sec-WebSocket-Accept =
base64(sha1(key ++ GUID)) - in particular the accept value for the sample
key is s3pPLMBiTxaQ9kYGzzhZRbK+xOo=. -/
theorem c9_handshake (req : Request)
    (hvis : reqUpgradeVisible req = true) :
    ((hGet req "upgrade" = none ∨ hGet req "sec-websocket-key" = none ∨
      (∃ v, hGet req "upgrade" = some v ∧ toStr v ≠ some "websocket")) →
      server_upgrade req =
        some { status := 400, headers := [], spawned := false,
               use_zlib := useZlibFlag req.query }) ∧
    (∀ v key, hGet req "upgrade" = some v → toStr v = some "websocket" →
      hGet req "sec-websocket-key" = some key →
      server_upgrade req =
        some { status := 101
               headers := [("connection", "Upgrade"), ("upgrade", "websocket"),
                           ("sec-websocket-accept", acceptKey key),
                           ("sec-websocket-version", "13")]
               spawned := true
               use_zlib := useZlibFlag req.query }) ∧
    acceptKey (strBytes "dGhlIHNhbXBsZSBub25jZQ==") = "s3pPLMBiTxaQ9kYGzzhZRbK+xOo=" := by
  refine ⟨?_, ?_, by decide⟩
  · intro hbad
    cases hu : hGet req "upgrade" with
    | none => simp [server_upgrade, hu, useZlibFlag]
    | some v =>
      cases hk : hGet req "sec-websocket-key" with
      | none => simp [server_upgrade, hu, hk, useZlibFlag]
      | some key =>
        rcases hbad with h | h | ⟨v', hv', hne⟩
        · rw [hu] at h; cases h
        · rw [hk] at h; cases h
        · rw [hu] at hv'
          injection hv' with hv'
          subst hv'
          have hall : v.all visibleAscii = true := by
            have h2 := hvis
            simp only [reqUpgradeVisible, hu] at h2
            exact h2
          have htv : toStr v = some (String.mk (v.map Char.ofNat)) := by
            simp [toStr, hall]
          have hsne : ¬ (String.mk (v.map Char.ofNat) = "websocket") := by
            intro hcontr
            exact hne (htv.trans (congrArg some hcontr))
          simp [server_upgrade, hu, hk, htv, hsne, useZlibFlag]
  · intro v key hv hk htv
    have haccept : (strBytes (acceptKey key)).all visibleAscii = true := encode_vis _
    simp [server_upgrade, hv, hk, htv, haccept, useZlibFlag]

/-- C9, witness: the sample request upgrades with status 101 and the
RFC 6455 sample accept key. -/
theorem c9_witness :
    server_upgrade
        { query := none
          headers := [("upgrade", strBytes "websocket"),
                      ("sec-websocket-key", strBytes "dGhlIHNhbXBsZSBub25jZQ==")] } =
      some { status := 101
             headers := [("connection", "Upgrade"), ("upgrade", "websocket"),
                         ("sec-websocket-accept", "s3pPLMBiTxaQ9kYGzzhZRbK+xOo="),
                         ("sec-websocket-version", "13")]
             spawned := true
             use_zlib := false } := by
  have h := c9_handshake
    { query := none
      headers := [("upgrade", strBytes "websocket"),
                  ("sec-websocket-key", strBytes "dGhlIHNhbXBsZSBub25jZQ==")] }
    (by decide)
  have h101 := h.2.1 (strBytes "websocket") (strBytes "dGhlIHNhbXBsZSBub25jZQ==")
    rfl (by decide) rfl
  rw [h101, h.2.2]
  rfl

/-! ## Claim C10 -/

/-- A request whose Upgrade header holds a non-visible-ASCII byte. -/
def c10badReq : Request :=
  { query := none
    headers := [("upgrade", [0]),
                ("sec-websocket-key", strBytes "x3JJHMbDL1EzLkh9GBhXDw==")] }

/-- C10: whenever every present Upgrade header value is visible ASCII,
server_upgrade never panics and returns a response with status 400 or
101; and the precondition is necessary: the `to_str().unwrap()` error
branch is reachable for a present Upgrade header with a non-visible-ASCII
byte, where server_upgrade panics (returns no response). -/
theorem c10_no_panic :
    (∀ req, reqUpgradeVisible req = true →
      ∃ o, server_upgrade req = some o ∧ (o.status = 400 ∨ o.status = 101)) ∧
    hGet c10badReq "upgrade" = some [0] ∧
    server_upgrade c10badReq = none := by
  refine ⟨?_, rfl, rfl⟩
  intro req hvis
  cases hu : hGet req "upgrade" with
  | none =>
    exact ⟨{ status := 400, headers := [], spawned := false,
             use_zlib := useZlibFlag req.query },
           by simp [server_upgrade, hu, useZlibFlag], Or.inl rfl⟩
  | some v =>
    cases hk : hGet req "sec-websocket-key" with
    | none =>
      exact ⟨{ status := 400, headers := [], spawned := false,
               use_zlib := useZlibFlag req.query },
             by simp [server_upgrade, hu, hk, useZlibFlag], Or.inl rfl⟩
    | some key =>
      have hall : v.all visibleAscii = true := by
        have h2 := hvis
        simp only [reqUpgradeVisible, hu] at h2
        exact h2
      have htv : toStr v = some (String.mk (v.map Char.ofNat)) := by
        simp [toStr, hall]
      by_cases hws : String.mk (v.map Char.ofNat) = "websocket"
      · have haccept : (strBytes (acceptKey key)).all visibleAscii = true := encode_vis _
        refine ⟨{ status := 101
                  headers := [("connection", "Upgrade"), ("upgrade", "websocket"),
                              ("sec-websocket-accept", acceptKey key),
                              ("sec-websocket-version", "13")]
                  spawned := true
                  use_zlib := useZlibFlag req.query },
                ?_, Or.inr rfl⟩
        simp [server_upgrade, hu, hk, htv, hws, haccept, useZlibFlag]
      · refine ⟨{ status := 400, headers := [], spawned := false,
                  use_zlib := useZlibFlag req.query }, ?_, Or.inl rfl⟩
        simp [server_upgrade, hu, hk, htv, hws, useZlibFlag]

/-- C10, witness: a header-less request satisfies the precondition
vacuously and gets a 400 or 101 response. -/
theorem c10_witness :
    ∃ o, server_upgrade { query := none, headers := [] } = some o ∧
      (o.status = 400 ∨ o.status = 101) :=
  c10_no_panic.1 { query := none, headers := [] } (by decide)

/-! ## Concrete caches used by the replay-engine claims -/

/-- A cache with nothing in it. -/
def emptyCache : Cache :=
  { guilds := []
    guildChannels := fun _ => none
    channels := fun _ => none
    guildMembers := fun _ => none
    members := fun _ _ => none
    users := fun _ => none
    guildRoles := fun _ => none
    roles := fun _ => none
    guildVoiceStates := fun _ => none
    voiceStates := fun _ _ => none }

def c5Cache : Cache :=
  { emptyCache with guilds :=
      [{ id := 42, unavailable := false, member_count := some 1, name := "G",
         owner_id := 7, permissions := none }] }

def c5Template : JsonObject := [("v", Json.num 10), ("guilds", Json.arr [])]

def c6Cache : Cache :=
  { emptyCache with guilds :=
      [{ id := 42, unavailable := false, member_count := some 1, name := "G",
         owner_id := 7, permissions := none },
       { id := 99, unavailable := true, member_count := none, name := "",
         owner_id := 0, permissions := none }] }

def c7Cache : Cache :=
  { emptyCache with
      guildChannels := fun gid => if gid = 42 then some [1, 2] else none
      channels := fun cid =>
        if cid = 1 then some { id := 1, isThread := false }
        else if cid = 2 then some { id := 2, isThread := true }
        else none }

/-- A cached member whose user record is absent from the cache. -/
def c8Member : CachedMember :=
  { avatar := none, communication_disabled_until := none, deaf := none, flags := 0,
    joined_at := none, mute := none, nick := none, pending := false,
    premium_since := none, roles := [], user_id := 5 }

/-- Scenario S6: guild 1 has one member (user 5) but no User record for 5. -/
def c8Cache : Cache :=
  { emptyCache with
      guilds := [{ id := 1, unavailable := false, member_count := some 1,
                   name := "G1", owner_id := 5, permissions := none }]
      guildMembers := fun gid => if gid = 1 then some [5] else none
      members := fun gid uid => if gid = 1 ∧ uid = 5 then some c8Member else none }

/-! ## Claim C5 -/

/-- C5: get_ready_payload increments the sequence by exactly 1 and returns
op 0, t READY, s the new counter, and d the template with its guilds key
replaced by one `{id: <guild id as string>, unavailable: true}` object per
cached guild (hence of length the number of cached guilds), all other
template keys unchanged. -/
theorem c5_ready_payload (c : Cache) (ready : JsonObject) (sequence : Nat) :
    (Guilds.get_ready_payload c ready sequence).2 = sequence + 1 ∧
    (Guilds.get_ready_payload c ready sequence).1.op = 0 ∧
    (Guilds.get_ready_payload c ready sequence).1.t = "READY" ∧
    (Guilds.get_ready_payload c ready sequence).1.s = sequence + 1 ∧
    ∃ d, (Guilds.get_ready_payload c ready sequence).1.d = Event.Ready d ∧
      objLookup "guilds" d =
        some (Json.arr (c.guilds.map (fun g =>
          Json.obj [("id", Json.str (toString g.id)),
                    ("unavailable", Json.bool true)]))) ∧
      (c.guilds.map (fun g =>
          Json.obj [("id", Json.str (toString g.id)),
                    ("unavailable", Json.bool true)])).length = c.guilds.length ∧
      ∀ k, k ≠ "guilds" → objLookup k d = objLookup k ready := by
  refine ⟨rfl, rfl, rfl, rfl, ?_⟩
  exact ⟨_, rfl, objLookup_objInsert_self _ _ _, by simp,
    fun k hk => objLookup_objInsert_other ready "guilds" k _ hk⟩

/-- C5, witness: one cached guild (id 42), template `{v:10, guilds:[]}`. -/
theorem c5_witness :
    (Guilds.get_ready_payload c5Cache c5Template 0).1.s = 1 ∧
    ∃ d, (Guilds.get_ready_payload c5Cache c5Template 0).1.d = Event.Ready d ∧
      objLookup "guilds" d =
        some (Json.arr [Json.obj [("id", Json.str "42"),
                                  ("unavailable", Json.bool true)]]) ∧
      objLookup "v" d = some (Json.num 10) := by
  obtain ⟨-, -, -, hs, d, hd, hg, -, hother⟩ := c5_ready_payload c5Cache c5Template 0
  refine ⟨hs, d, hd, ?_, ?_⟩
  · exact hg
  · rw [hother "v" (by decide)]
    rfl

/-! ## Claim C6 -/

/-- C6: get_guild_payloads yields exactly one payload per cached guild,
with s continuing contiguously (sequence + i + 1 for the i-th), each a
GUILD_DELETE `{id, unavailable:true}` when the guild's unavailable flag is
set, otherwise a GUILD_CREATE with unavailable = false, the channel,
thread, member, role and voice-state lists reconstructed from the cache,
and the cached name, owner_id, permissions and member_count carried
over. -/
theorem c6_guild_payloads (c : Cache) (sequence : Nat) :
    (Guilds.get_guild_payloads c sequence).1.length = c.guilds.length ∧
    (Guilds.get_guild_payloads c sequence).2 = sequence + c.guilds.length ∧
    ∀ i, (h : i < c.guilds.length) →
      ∃ p, (Guilds.get_guild_payloads c sequence).1.get? i = some p ∧
        p.op = 0 ∧ p.s = sequence + i + 1 ∧
        ((c.guilds.get ⟨i, h⟩).unavailable = true →
          p.t = "GUILD_DELETE" ∧
          p.d = Event.GuildDelete { id := (c.guilds.get ⟨i, h⟩).id,
                                    unavailable := true }) ∧
        ((c.guilds.get ⟨i, h⟩).unavailable = false →
          p.t = "GUILD_CREATE" ∧
          ∃ gd, p.d = Event.GuildCreate gd ∧
            gd.unavailable = false ∧
            gd.id = (c.guilds.get ⟨i, h⟩).id ∧
            gd.channels = Guilds.channels_in_guild c (c.guilds.get ⟨i, h⟩).id ∧
            gd.threads = Guilds.threads_in_guild c (c.guilds.get ⟨i, h⟩).id ∧
            gd.members = Guilds.members_in_guild c (c.guilds.get ⟨i, h⟩).id ∧
            gd.roles = Guilds.roles_in_guild c (c.guilds.get ⟨i, h⟩).id ∧
            gd.voice_states = Guilds.voice_states_in_guild c (c.guilds.get ⟨i, h⟩).id ∧
            gd.name = (c.guilds.get ⟨i, h⟩).name ∧
            gd.owner_id = (c.guilds.get ⟨i, h⟩).owner_id ∧
            gd.permissions = (c.guilds.get ⟨i, h⟩).permissions ∧
            gd.member_count = (c.guilds.get ⟨i, h⟩).member_count) := by
  obtain ⟨h1, h2, h3⟩ := Guilds.guildPayloadsGo_spec c c.guilds sequence
  refine ⟨h1, h2, ?_⟩
  intro i h
  refine ⟨Guilds.guildPayloadOf c (c.guilds.get ⟨i, h⟩) (sequence + i + 1),
    h3 i h, ?_, ?_, ?_, ?_⟩
  · simp only [Guilds.guildPayloadOf]
    split <;> rfl
  · simp only [Guilds.guildPayloadOf]
    split <;> rfl
  · intro hu
    simp only [Guilds.guildPayloadOf]
    rw [if_pos hu]
    exact ⟨rfl, rfl⟩
  · intro hu
    have hcond : ¬ ((c.guilds.get ⟨i, h⟩).unavailable = true) := by
      rw [hu]
      exact Bool.false_ne_true
    simp only [Guilds.guildPayloadOf]
    rw [if_neg hcond]
    exact ⟨rfl, _, rfl, rfl, rfl, rfl, rfl, rfl, rfl, rfl, rfl, rfl, rfl, rfl⟩

/-- C6, witness: for a cache holding an available guild 42 and an
unavailable guild 99, starting at sequence 1 (after READY), the second
payload is the GUILD_DELETE of scenario S3 with s = 3 ... and the whole
replay emits 2 payloads ending at sequence 3. -/
theorem c6_witness :
    (Guilds.get_guild_payloads c6Cache 1).1.length = 2 ∧
    (Guilds.get_guild_payloads c6Cache 1).2 = 3 ∧
    ∃ p, (Guilds.get_guild_payloads c6Cache 1).1.get? 1 = some p ∧
      p.op = 0 ∧ p.s = 3 ∧ p.t = "GUILD_DELETE" ∧
      p.d = Event.GuildDelete { id := 99, unavailable := true } := by
  obtain ⟨h1, h2, h3⟩ := c6_guild_payloads c6Cache 1
  refine ⟨h1, h2, ?_⟩
  obtain ⟨p, hp, hop, hs, hdel, -⟩ := h3 1 (by decide)
  obtain ⟨ht, hd⟩ := hdel (by decide)
  exact ⟨p, hp, hop, hs, ht, hd⟩

/-! ## Claim C7 -/

theorem channelFilter_eq_some (c : Cache) (cid : Nat) (ch : Channel) :
    (match c.channels cid with
     | none => none
     | some channel => if channel.isThread then none else some channel) = some ch ↔
    c.channels cid = some ch ∧ ch.isThread = false := by
  constructor
  · intro h
    split at h
    · cases h
    · next ch0 heq =>
      split at h
      · cases h
      · next hth =>
        injection h with h
        subst h
        exact ⟨heq, by simpa using hth⟩
  · rintro ⟨heq, hth⟩
    rw [heq]
    simp [hth]

theorem threadFilter_eq_some (c : Cache) (cid : Nat) (ch : Channel) :
    (match c.channels cid with
     | none => none
     | some channel => if channel.isThread then some channel else none) = some ch ↔
    c.channels cid = some ch ∧ ch.isThread = true := by
  constructor
  · intro h
    split at h
    · cases h
    · next ch0 heq =>
      split at h
      · next hth =>
        injection h with h
        subst h
        exact ⟨heq, hth⟩
      · cases h
  · rintro ⟨heq, hth⟩
    rw [heq]
    simp [hth]

theorem mem_channels_in_guild (c : Cache) (gid : Nat) (ch : Channel) :
    ch ∈ Guilds.channels_in_guild c gid ↔
      ((∃ cid ∈ (c.guildChannels gid).getD [], c.channels cid = some ch) ∧
       ch.isThread = false) := by
  unfold Guilds.channels_in_guild
  cases hids : c.guildChannels gid with
  | none => simp
  | some ids =>
    simp only [Option.getD_some]
    rw [List.mem_filterMap]
    constructor
    · rintro ⟨cid, hcid, hf⟩
      rcases (channelFilter_eq_some c cid ch).mp hf with ⟨hcc, hth⟩
      exact ⟨⟨cid, hcid, hcc⟩, hth⟩
    · rintro ⟨⟨cid, hcid, hcc⟩, hth⟩
      exact ⟨cid, hcid, (channelFilter_eq_some c cid ch).mpr ⟨hcc, hth⟩⟩

theorem mem_threads_in_guild (c : Cache) (gid : Nat) (ch : Channel) :
    ch ∈ Guilds.threads_in_guild c gid ↔
      ((∃ cid ∈ (c.guildChannels gid).getD [], c.channels cid = some ch) ∧
       ch.isThread = true) := by
  unfold Guilds.threads_in_guild
  cases hids : c.guildChannels gid with
  | none => simp
  | some ids =>
    simp only [Option.getD_some]
    rw [List.mem_filterMap]
    constructor
    · rintro ⟨cid, hcid, hf⟩
      rcases (threadFilter_eq_some c cid ch).mp hf with ⟨hcc, hth⟩
      exact ⟨⟨cid, hcid, hcc⟩, hth⟩
    · rintro ⟨⟨cid, hcid, hcc⟩, hth⟩
      exact ⟨cid, hcid, (threadFilter_eq_some c cid ch).mpr ⟨hcc, hth⟩⟩

/-- C7: channels and threads of a replayed guild partition the guild's
cached channels: isThread is false on every element of channels and true
on every element of threads, no channel is in both lists, and a channel
is in one of the lists exactly when it is a resolvable channel of the
guild in the cache. -/
theorem c7_thread_partition (c : Cache) (guild_id : Nat) :
    (∀ ch ∈ Guilds.channels_in_guild c guild_id, ch.isThread = false) ∧
    (∀ ch ∈ Guilds.threads_in_guild c guild_id, ch.isThread = true) ∧
    (∀ ch, ¬ (ch ∈ Guilds.channels_in_guild c guild_id ∧
              ch ∈ Guilds.threads_in_guild c guild_id)) ∧
    (∀ ch, (ch ∈ Guilds.channels_in_guild c guild_id ∨
            ch ∈ Guilds.threads_in_guild c guild_id) ↔
      ∃ cid ∈ (c.guildChannels guild_id).getD [], c.channels cid = some ch) := by
  refine ⟨?_, ?_, ?_, ?_⟩
  · exact fun ch h => ((mem_channels_in_guild c guild_id ch).mp h).2
  · exact fun ch h => ((mem_threads_in_guild c guild_id ch).mp h).2
  · rintro ch ⟨h1, h2⟩
    have t1 := ((mem_channels_in_guild c guild_id ch).mp h1).2
    have t2 := ((mem_threads_in_guild c guild_id ch).mp h2).2
    rw [t1] at t2
    cases t2
  · intro ch
    constructor
    · rintro (h | h)
      · exact ((mem_channels_in_guild c guild_id ch).mp h).1
      · exact ((mem_threads_in_guild c guild_id ch).mp h).1
    · intro hex
      cases hth : ch.isThread with
      | false => exact Or.inl ((mem_channels_in_guild c guild_id ch).mpr ⟨hex, hth⟩)
      | true => exact Or.inr ((mem_threads_in_guild c guild_id ch).mpr ⟨hex, hth⟩)

/-- C7, witness: guild 42 with one non-thread channel 1 and one thread 2;
the thread is covered by the partition (right-to-left direction). -/
theorem c7_witness :
    Guilds.channels_in_guild c7Cache 42 = [{ id := 1, isThread := false }] ∧
    Guilds.threads_in_guild c7Cache 42 = [{ id := 2, isThread := true }] ∧
    ({ id := 2, isThread := true } ∈ Guilds.channels_in_guild c7Cache 42 ∨
     { id := 2, isThread := true } ∈ Guilds.threads_in_guild c7Cache 42) := by
  refine ⟨rfl, rfl, ?_⟩
  exact ((c7_thread_partition c7Cache 42).2.2.2
    { id := 2, isThread := true }).mpr ⟨2, by decide, rfl⟩

/-! ## Claim C8 -/

/-- C8: a cached member whose user record is missing is silently omitted:
Guilds.member returns none, members_in_guild contains exactly the members
whose hydration succeeds, the voice state built for a user carries
exactly that (possibly absent) hydrated member, and for the scenario-S6
cache (guild 1, one member u=5, no user 5) the replayed GUILD_CREATE has
members = [] while the replay of the guild still succeeds. -/
theorem c8_missing_user :
    (∀ c gid uid m, (c : Cache).members gid uid = some m →
      c.users m.user_id = none → Guilds.member c gid uid = none) ∧
    (∀ c gid x, x ∈ Guilds.members_in_guild c gid ↔
      ∃ uid ∈ ((c : Cache).guildMembers gid).getD [],
        Guilds.member c gid uid = some x) ∧
    (∀ c gid uid vs,
      (Guilds.voiceStateOf c gid uid vs).member = Guilds.member c gid uid) ∧
    Guilds.members_in_guild c8Cache 1 = [] ∧
    (∃ p, (Guilds.get_guild_payloads c8Cache 1).1 = [p] ∧
      p.t = "GUILD_CREATE" ∧
      ∃ gd, p.d = Event.GuildCreate gd ∧ gd.members = []) := by
  refine ⟨?_, ?_, ?_, rfl, ?_⟩
  · intro c gid uid m hm hu
    simp [Guilds.member, hm, hu]
  · intro c gid x
    unfold Guilds.members_in_guild
    cases hids : c.guildMembers gid with
    | none => simp
    | some ids =>
      simp only [Option.getD_some]
      exact List.mem_filterMap
  · intro c gid uid vs
    rfl
  · exact ⟨_, rfl, rfl, _, rfl, rfl⟩

/-- C8, witness: hydration of the member with the missing user fails. -/
theorem c8_witness : Guilds.member c8Cache 1 5 = none :=
  c8_missing_user.1 c8Cache 1 5 c8Member rfl rfl
